import Mathlib

/-
Verification of the address-resolution, logging and shutdown logic of
src/bluesky/commandline/zmq_proxy.py, shallowly embedded in Lean 4.

The script's `main` reconciles two addressing schemes (legacy positional
`in_port`/`out_port` versus the optional `--in-address`/`--out-address`),
coerces the resolved values with Python's `int()` builtin, maps the
verbosity count to a logging level, optionally starts a dispatcher thread,
and treats a KeyboardInterrupt during `proxy.start()` as a clean exit.
-/

namespace ZmqProxy

/-- Python exceptions that appear in the script: `int()` raises `ValueError`
on an unparsable string and `TypeError` on `None`; `KeyboardInterrupt`
arrives during the foreground loop. -/
inductive PyExc where
  | valueError
  | typeError
  | keyboardInterrupt
  deriving DecidableEq, Repr

/-- A Python value flowing through the address variables of `main`: after
argparse, `in_address`/`out_address` are `None`, an `int`, or a `str`. -/
inductive PyVal where
  | none
  | int (n : Int)
  | str (s : String)
  deriving DecidableEq, Repr

def PyVal.ofOptionInt : Option Int → PyVal
  | Option.none => PyVal.none
  | Option.some n => PyVal.int n

def PyVal.ofOptionString : Option String → PyVal
  | Option.none => PyVal.none
  | Option.some s => PyVal.str s

/-- Digit run of a Python integer literal body: digits with single
underscores allowed only between digits (CPython `int(str)` grammar).
The Boolean records whether the previous character was an underscore. -/
def pyDigitsLoop : List Char → Bool → Nat → Option Nat
  | [], afterUnderscore, acc =>
      if afterUnderscore then Option.none else Option.some acc
  | c :: cs, afterUnderscore, acc =>
      if c.isDigit then pyDigitsLoop cs false (10 * acc + (c.toNat - 48))
      else if c = '_' && !afterUnderscore then pyDigitsLoop cs true acc
      else Option.none

/-- Digit run that must start with a digit (no leading underscore). -/
def pyDigitsStart : List Char → Option Nat
  | [] => Option.none
  | c :: cs => if c.isDigit then pyDigitsLoop cs false (c.toNat - 48) else Option.none

/-- Strip leading and trailing whitespace from a character list, as Python
`int(str)` ignores surrounding whitespace. -/
def pyStrip (cs : List Char) : List Char :=
  ((cs.dropWhile Char.isWhitespace).reverse.dropWhile Char.isWhitespace).reverse

/-- Python's `int(s)` on a string: optional surrounding whitespace, optional
sign, then a digit run; `Option.none` models the `ValueError` case. -/
def pythonIntOfString (s : String) : Option Int :=
  match pyStrip s.toList with
  | '+' :: rest => (pyDigitsStart rest).map Int.ofNat
  | '-' :: rest => (pyDigitsStart rest).map (fun n => -(n : Int))
  | rest => (pyDigitsStart rest).map Int.ofNat

/-- Python's `int(x)` builtin on the values `main` passes it: an int is
returned as-is, a string is parsed (ValueError on failure), `None` raises
TypeError. -/
def pyInt : PyVal → Except PyExc Int
  | PyVal.none => Except.error PyExc.typeError
  | PyVal.int n => Except.ok n
  | PyVal.str s =>
      match pythonIntOfString s with
      | Option.some k => Except.ok k
      | Option.none => Except.error PyExc.valueError

/-- The coercion step of `main`: `try: addr = int(addr) except (ValueError,
TypeError): pass` — on success the value becomes the parsed int, otherwise
it is left unchanged. -/
def coerceAddress (v : PyVal) : PyVal :=
  match pyInt v with
  | Except.ok n => PyVal.int n
  | Except.error _ => v

/-- The two configuration errors `main` raises (as `ValueError`) during
address reconciliation, named by what each message indicates. -/
inductive ConfigError where
  | incompleteLegacyPair
  | mixedSchemes
  deriving DecidableEq, Repr

/-- The exact exception messages from the source. -/
def configErrorMessage : ConfigError → String
  | ConfigError.incompleteLegacyPair =>
      "Both in_port and out_port positional arguments must be provided together. Consider using the new optional arguments instead: --in-address and --out-address"
  | ConfigError.mixedSchemes =>
      "Cannot mix positional arguments (in_port, out_port) with optional arguments (--in-address, --out-address)."

/-- The FutureWarning text emitted on the legacy path. -/
def deprecationWarningMessage : String :=
  "Using positional arguments for in_port and out_port is deprecated. Use --in-address and --out-address instead."

/-- Result of the backward-compatibility block of `main`: the two selected
address values (before the `int()` coercion) and whether the deprecation
warning was emitted (exactly the legacy-scheme provenance). -/
structure Resolved where
  in_address : PyVal
  out_address : PyVal
  deprecationWarned : Bool
  deriving DecidableEq, Repr

/-- The backward-compatibility block of `main` (the scheme selection):
if either positional value is given, both must be, they must not be mixed
with the optional arguments, and the legacy pair is used with a warning;
otherwise the two optional values are used as given. -/
def resolveAddresses (in_port out_port : Option Int)
    (in_address_opt out_address_opt : Option String) : Except ConfigError Resolved :=
  if in_port.isSome || out_port.isSome then
    if in_port.isNone || out_port.isNone then
      Except.error ConfigError.incompleteLegacyPair
    else if in_address_opt.isSome || out_address_opt.isSome then
      Except.error ConfigError.mixedSchemes
    else
      Except.ok ⟨PyVal.ofOptionInt in_port, PyVal.ofOptionInt out_port, true⟩
  else
    Except.ok ⟨PyVal.ofOptionString in_address_opt, PyVal.ofOptionString out_address_opt, false⟩

/-- Logging levels used by the script, with their Python numeric values. -/
inductive LogLevel where
  | debug
  | info
  deriving DecidableEq, Repr

def LogLevel.value : LogLevel → Nat
  | LogLevel.debug => 10
  | LogLevel.info => 20

/-- One log call made by `log_writer`: the level, and the `(name, doc)`
arguments passed to the logger (the full document is included). -/
structure LogRecord (α : Type) where
  level : LogLevel
  name : String
  doc : α
  deriving DecidableEq, Repr

/-- The `log_writer` callback defined inside `start_dispatcher`: start/stop
documents are logged with `logger.info`, every other kind with
`logger.debug`, always passing the name and the full document. -/
def log_writer {α : Type} (name : String) (doc : α) : LogRecord α :=
  if name = "start" ∨ name = "stop" then ⟨LogLevel.info, name, doc⟩
  else ⟨LogLevel.debug, name, doc⟩

/-- Modelled from the spec: the emission gate of the process-wide bluesky
logger configured by `config_bluesky_logging` (bluesky.log, not under
src/). A record is emitted exactly when its level is at least the
configured level; verbosity gating happens at this log-emission layer. -/
def isEmitted (configured : LogLevel) (record : LogLevel) : Bool :=
  configured.value ≤ record.value

/-- The parsed command-line arguments of `main`. `verbose` counts the `-v`
occurrences (argparse `action=count` leaves it falsy when absent, modelled
as 0); `logfile` is the `--logfile` string if supplied. -/
structure Args where
  in_address_opt : Option String
  out_address_opt : Option String
  in_port : Option Int
  out_port : Option Int
  verbose : Nat
  logfile : Option String
  deriving DecidableEq, Repr

/-- Python truthiness of an optional string: `None` and the empty string
are falsy. -/
def truthyStr : Option String → Bool
  | Option.none => false
  | Option.some s => s != ""

/-- Arguments of one `config_bluesky_logging` call: the level and the
optional `file` keyword. -/
structure LoggingConfig where
  level : LogLevel
  file : Option String
  deriving DecidableEq, Repr

/-- The verbose block of `main`: when the verbosity count is truthy, the
level is INFO for one or two `-v` and DEBUG for three or more, and a
truthy `--logfile` value is passed through to `config_bluesky_logging`;
without `-v` no logging is configured (and no dispatcher is started). -/
def mainLoggingConfig (a : Args) : Option LoggingConfig :=
  if a.verbose != 0 then
    let level := if a.verbose ≤ 2 then LogLevel.info else LogLevel.debug
    if truthyStr a.logfile then Option.some ⟨level, a.logfile⟩
    else Option.some ⟨level, Option.none⟩
  else Option.none

/-- The two actions `start_dispatcher` performs after its logfile check. -/
inductive DispatcherStep where
  | subscribeLogWriter
  | startLoop
  deriving DecidableEq, Repr

/-- The `ValueError` message `start_dispatcher` raises for a non-None
logfile argument. -/
def deprecatedLogfileMessage : String :=
  "Parameter \x27logfile\x27 is deprecated and will be removed in future releases. Currently it does not have effect. Call the function with \x27logfile=None\x27 "

/-- The `start_dispatcher` function: with a non-None `logfile` it raises
before subscribing or starting; otherwise it subscribes `log_writer` and
starts the dispatcher loop. -/
def start_dispatcher (logfile : Option String) : Except String (List DispatcherStep) :=
  match logfile with
  | Option.some _ => Except.error deprecatedLogfileMessage
  | Option.none => Except.ok [DispatcherStep.subscribeLogWriter, DispatcherStep.startLoop]

/-- The dispatcher-thread call in `main`: `threading.Thread(target=
start_dispatcher, args=(proxy.out_port,))` passes only the address, so
`logfile` keeps its default `None`. -/
def mainStartDispatcher (_out_port : PyVal) : Except String (List DispatcherStep) :=
  start_dispatcher Option.none

/-- The configuration-processing pipeline of `main` up to the `Proxy`
construction and verbose block: scheme selection, then `int()` coercion of
both values, along with the logging configuration derived from the
arguments. The only errors raised are the two resolution errors. -/
def mainModel (a : Args) : Except ConfigError (PyVal × PyVal × Option LoggingConfig) :=
  match resolveAddresses a.in_port a.out_port a.in_address_opt a.out_address_opt with
  | Except.error e => Except.error e
  | Except.ok r =>
      Except.ok (coerceAddress r.in_address, coerceAddress r.out_address, mainLoggingConfig a)

/-- The foreground `try: proxy.start() except KeyboardInterrupt` of `main`:
a KeyboardInterrupt raised by the loop is swallowed and the shutdown
message is printed; a normal return prints nothing; any other exception
would propagate. -/
def mainRunProxy (outcome : Except PyExc Unit) : Except PyExc (Option String) :=
  match outcome with
  | Except.ok _ => Except.ok Option.none
  | Except.error PyExc.keyboardInterrupt => Except.ok (Option.some "Interrupted. Exiting...")
  | Except.error e => Except.error e

/-- Helper: whenever exactly one of the two positional values is present,
the scheme-selection block fails with the incomplete-legacy-pair error,
whatever the optional arguments are. -/
theorem resolve_incomplete_aux (in_port out_port : Option Int)
    (in_address_opt out_address_opt : Option String)
    (h : in_port.isSome ≠ out_port.isSome) :
    resolveAddresses in_port out_port in_address_opt out_address_opt =
      Except.error ConfigError.incompleteLegacyPair := by
  cases in_port <;> cases out_port <;> simp_all [resolveAddresses]

/-- C1: for every input where exactly one of the two legacy values is
present and the other is absent, address resolution fails with the
ConfigError indicating an incomplete legacy address pair, and no resolved
pair is produced. -/
theorem c1_incomplete_legacy_pair_fails (in_port out_port : Option Int)
    (in_address_opt out_address_opt : Option String)
    (h : in_port.isSome ≠ out_port.isSome) :
    resolveAddresses in_port out_port in_address_opt out_address_opt =
      Except.error ConfigError.incompleteLegacyPair :=
  resolve_incomplete_aux in_port out_port in_address_opt out_address_opt h

/-- Witness for C1 at the spec scenario in_port=5577 with out_port absent. -/
theorem c1_incomplete_legacy_pair_fails_witness :
    (Option.some (5577 : Int)).isSome ≠ (Option.none : Option Int).isSome ∧
    resolveAddresses (Option.some 5577) Option.none Option.none Option.none =
      Except.error ConfigError.incompleteLegacyPair :=
  ⟨by decide,
   c1_incomplete_legacy_pair_fails (Option.some 5577) Option.none Option.none Option.none
     (by decide)⟩

/-- C2: for every input where both legacy values are present and at least
one current value is also present, address resolution fails with the
ConfigError indicating mixed addressing schemes. -/
theorem c2_mixed_schemes_fails (in_port out_port : Int)
    (in_address_opt out_address_opt : Option String)
    (h : in_address_opt.isSome ∨ out_address_opt.isSome) :
    resolveAddresses (Option.some in_port) (Option.some out_port) in_address_opt out_address_opt =
      Except.error ConfigError.mixedSchemes := by
  have hb : (in_address_opt.isSome || out_address_opt.isSome) = true := by
    cases h <;> simp_all
  simp [resolveAddresses, hb]

/-- Witness for C2 at the spec scenario in_port=5577, out_port=5578,
out_address_opt="localhost:6000". -/
theorem c2_mixed_schemes_fails_witness :
    ((Option.none : Option String).isSome ∨ (Option.some "localhost:6000").isSome) ∧
    resolveAddresses (Option.some 5577) (Option.some 5578) Option.none
        (Option.some "localhost:6000") =
      Except.error ConfigError.mixedSchemes :=
  ⟨by decide,
   c2_mixed_schemes_fails 5577 5578 Option.none (Option.some "localhost:6000")
     (by decide)⟩

/-- C3: for every input where both legacy values are present and no current
value is present, address resolution succeeds, returns exactly the legacy
pair as the resolved addresses, and the deprecation warning is emitted
(the result is produced, so the warning is non-fatal). -/
theorem c3_legacy_pair_succeeds (in_port out_port : Int) :
    resolveAddresses (Option.some in_port) (Option.some out_port) Option.none Option.none =
      Except.ok ⟨PyVal.int in_port, PyVal.int out_port, true⟩ := by
  simp [resolveAddresses, PyVal.ofOptionInt]

/-- C4: for every current-scheme input (both legacy values absent), address
resolution returns exactly the two current values unchanged as the
resolved pair (and no deprecation warning). -/
theorem c4_current_scheme_unchanged (in_address_opt out_address_opt : Option String) :
    resolveAddresses Option.none Option.none in_address_opt out_address_opt =
      Except.ok ⟨PyVal.ofOptionString in_address_opt, PyVal.ofOptionString out_address_opt,
        false⟩ := by
  simp [resolveAddresses]

/-- C5: the coercion step maps an integer-valued input to itself, a string
that parses as an integer to that bare integer, a string that does not
parse to the unchanged string, and an absent value to an unresolved
(absent) value. -/
theorem c5_coercion_cases :
    (coerceAddress PyVal.none = PyVal.none) ∧
    (∀ n : Int, coerceAddress (PyVal.int n) = PyVal.int n) ∧
    (∀ s k, pythonIntOfString s = Option.some k →
      coerceAddress (PyVal.str s) = PyVal.int k) ∧
    (∀ s, pythonIntOfString s = Option.none →
      coerceAddress (PyVal.str s) = PyVal.str s) := by
  refine ⟨rfl, fun n => rfl, ?_, ?_⟩
  · intro s k h
    simp [coerceAddress, pyInt, h]
  · intro s h
    simp [coerceAddress, pyInt, h]

/-- Witness for C5 on the strings "5577" (parses) and "localhost:6000"
(does not parse). -/
theorem c5_coercion_cases_witness :
    (pythonIntOfString "5577" = Option.some 5577 ∧
      coerceAddress (PyVal.str "5577") = PyVal.int 5577) ∧
    (pythonIntOfString "localhost:6000" = Option.none ∧
      coerceAddress (PyVal.str "localhost:6000") = PyVal.str "localhost:6000") :=
  ⟨⟨by decide, c5_coercion_cases.2.2.1 "5577" 5577 (by decide)⟩,
   ⟨by decide, c5_coercion_cases.2.2.2 "localhost:6000" (by decide)⟩⟩

/-- C6: a verbosity count of 1 or 2 configures INFO-level logging, under
which exactly the start/stop records of `log_writer` are emitted and the
others suppressed; a count of 3 or more configures DEBUG-level logging,
under which every record is emitted. -/
theorem c6_verbosity_mapping (a : Args) (name : String) :
    (1 ≤ a.verbose → a.verbose ≤ 2 →
      (mainLoggingConfig a).map LoggingConfig.level = Option.some LogLevel.info ∧
      (isEmitted LogLevel.info (log_writer name ()).level = true ↔
        (name = "start" ∨ name = "stop"))) ∧
    (3 ≤ a.verbose →
      (mainLoggingConfig a).map LoggingConfig.level = Option.some LogLevel.debug ∧
      isEmitted LogLevel.debug (log_writer name ()).level = true) := by
  constructor
  · intro h1 h2
    have hv : a.verbose ≠ 0 := by omega
    constructor
    · simp [mainLoggingConfig, hv, h2]
      split <;> simp
    · unfold log_writer
      split <;> simp_all [isEmitted, LogLevel.value]
  · intro h3
    have hv : a.verbose ≠ 0 := by omega
    have h2 : ¬ a.verbose ≤ 2 := by omega
    constructor
    · simp [mainLoggingConfig, hv, h2]
      split <;> simp
    · unfold log_writer
      split <;> simp [isEmitted, LogLevel.value]

/-- Witness for C6 at verbosity 2 with a non-boundary document name. -/
theorem c6_verbosity_mapping_witness :
    (mainLoggingConfig ⟨Option.none, Option.none, Option.none, Option.none, 2,
        Option.none⟩).map LoggingConfig.level = Option.some LogLevel.info ∧
    (isEmitted LogLevel.info (log_writer "event" ()).level = true ↔
      ("event" = "start" ∨ "event" = "stop")) :=
  (c6_verbosity_mapping
      ⟨Option.none, Option.none, Option.none, Option.none, 2, Option.none⟩ "event").1
    (by decide) (by decide)

/-- C7: `log_writer` logs at the informational level, with the full
document and the name, exactly when the name is "start" or "stop", and at
the debug level for every other name. -/
theorem c7_log_writer_levels {α : Type} (name : String) (doc : α) :
    ((log_writer name doc).level = LogLevel.info ↔ (name = "start" ∨ name = "stop")) ∧
    ((log_writer name doc).level = LogLevel.debug ↔ ¬(name = "start" ∨ name = "stop")) ∧
    (log_writer name doc).name = name ∧
    (log_writer name doc).doc = doc := by
  unfold log_writer
  split <;> simp_all

/-- C8 counterexample: a run supplying the deprecated --logfile (with -v)
is not rejected — `main` resolves the addresses successfully and passes
the logfile through to the logging configuration, honoring it. -/
theorem c8_logfile_counterexample :
    mainModel ⟨Option.none, Option.none, Option.none, Option.none, 1,
        Option.some "temp.log"⟩ =
      Except.ok (PyVal.none, PyVal.none,
        Option.some ⟨LogLevel.info, Option.some "temp.log"⟩) := by
  rfl

/-- C8 amended: `main` never rejects --logfile — with verbosity enabled a
truthy logfile is passed to the logging configuration, i.e. honored; the
rejection exists only in `start_dispatcher`, which errors on a non-None
logfile argument before subscribing or starting, and `main` always calls
it without a logfile so the error never fires in a run. -/
theorem c8_logfile_behavior (s : String) (a : Args)
    (h1 : a.verbose ≠ 0) (h2 : truthyStr a.logfile = true) :
    start_dispatcher (Option.some s) = Except.error deprecatedLogfileMessage ∧
    (∀ p : PyVal, mainStartDispatcher p =
      Except.ok [DispatcherStep.subscribeLogWriter, DispatcherStep.startLoop]) ∧
    mainLoggingConfig a =
      Option.some ⟨if a.verbose ≤ 2 then LogLevel.info else LogLevel.debug, a.logfile⟩ := by
  refine ⟨rfl, fun p => rfl, ?_⟩
  simp [mainLoggingConfig, h1, h2]

/-- Witness for the amended C8 at logfile "temp.log" and verbosity 1. -/
theorem c8_logfile_behavior_witness :
    ((⟨Option.none, Option.none, Option.none, Option.none, 1,
        Option.some "temp.log"⟩ : Args).verbose ≠ 0) ∧
    truthyStr (Option.some "temp.log") = true ∧
    (start_dispatcher (Option.some "temp.log") =
        Except.error deprecatedLogfileMessage ∧
      (∀ p : PyVal, mainStartDispatcher p =
        Except.ok [DispatcherStep.subscribeLogWriter, DispatcherStep.startLoop]) ∧
      mainLoggingConfig ⟨Option.none, Option.none, Option.none, Option.none, 1,
          Option.some "temp.log"⟩ =
        Option.some ⟨if (1 : Nat) ≤ 2 then LogLevel.info else LogLevel.debug,
          Option.some "temp.log"⟩) :=
  ⟨by decide, by decide,
   c8_logfile_behavior "temp.log"
     ⟨Option.none, Option.none, Option.none, Option.none, 1, Option.some "temp.log"⟩
     (by decide) (by decide)⟩

/-- C9: a KeyboardInterrupt raised during the foreground proxy loop is not
propagated as an error: `main` returns normally with the clean shutdown
message. -/
theorem c9_interrupt_clean_exit :
    mainRunProxy (Except.error PyExc.keyboardInterrupt) =
      Except.ok (Option.some "Interrupted. Exiting...") := rfl

/-- C10: when exactly one legacy value is present and at least one current
value is also present, resolution fails with the incomplete-legacy-pair
error, not the mixed-schemes error: the incomplete-pair check runs first. -/
theorem c10_incomplete_beats_mixed (in_port out_port : Option Int)
    (in_address_opt out_address_opt : Option String)
    (h1 : in_port.isSome ≠ out_port.isSome)
    (_h2 : in_address_opt.isSome ∨ out_address_opt.isSome) :
    resolveAddresses in_port out_port in_address_opt out_address_opt =
      Except.error ConfigError.incompleteLegacyPair :=
  resolve_incomplete_aux in_port out_port in_address_opt out_address_opt h1

/-- Witness for C10 at in_port=5577 only, with a current out-address also
supplied. -/
theorem c10_incomplete_beats_mixed_witness :
    (Option.some (5577 : Int)).isSome ≠ (Option.none : Option Int).isSome ∧
    ((Option.none : Option String).isSome ∨ (Option.some "localhost:6000").isSome) ∧
    resolveAddresses (Option.some 5577) Option.none Option.none
        (Option.some "localhost:6000") =
      Except.error ConfigError.incompleteLegacyPair :=
  ⟨by decide, by decide,
   c10_incomplete_beats_mixed (Option.some 5577) Option.none Option.none
     (Option.some "localhost:6000") (by decide) (by decide)⟩

end ZmqProxy
